import Mathlib

/-!
Verification of the Mushroom-Cultivation environmental control system
(`app.py`).  Python floats are embedded as rationals, Python ints as
integers; Python `round(x, 1)` (round-half-to-even) and `int(x)`
(truncation toward zero) are modelled explicitly.  The growth-phase
table, sensor configuration and control settings live in `config.py`,
which is injected read-only configuration; functions that read it are
parameterised by the looked-up values.
-/

/-- Python `round` to the nearest integer, ties going to the even
integer (banker's rounding). -/
def roundHalfEven (q : ℚ) : ℤ :=
  if q - ⌊q⌋ < 1/2 then ⌊q⌋
  else if 1/2 < q - ⌊q⌋ then ⌊q⌋ + 1
  else if ⌊q⌋ % 2 = 0 then ⌊q⌋ else ⌊q⌋ + 1

/-- Python `round(x, 1)`: round to one decimal digit. -/
def pyRound1 (q : ℚ) : ℚ :=
  (roundHalfEven (q * 10) : ℚ) / 10

/-- Python `int(x)`: truncation toward zero. -/
def pyInt (q : ℚ) : ℤ :=
  if 0 ≤ q then ⌊q⌋ else ⌈q⌉

/-- The four mushroom health statuses returned by
`determine_mushroom_status`. -/
inductive Status where
  | optimal
  | good
  | warning
  | critical
deriving DecidableEq, Repr

/-- One growth phase's entry of the `GROWTH_PHASES` table
(`config.py`, external read-only configuration): temperature range,
humidity range, light-needed flag, display name. -/
structure PhaseConfig where
  tempMin : ℚ
  tempMax : ℚ
  humidityMin : ℚ
  humidityMax : ℚ
  light_needed : Bool
  name : String

/-- The `issues` list built inside
`SensorService.determine_mushroom_status` (app.py:592-603). -/
def issuesList (cfg : PhaseConfig) (temp humidity co2 light water_level : ℚ) :
    List String :=
  (if temp < cfg.tempMin - 2 ∨ temp > cfg.tempMax + 2 then ["temperature"] else [])
  ++ (if humidity < cfg.humidityMin - 10 ∨ humidity > cfg.humidityMax + 5 then ["humidity"] else [])
  ++ (if co2 < 600 ∨ co2 > 1500 then ["co2"] else [])
  ++ (if cfg.light_needed = true ∧ light < 200 then ["light"] else [])
  ++ (if water_level < 20 then ["water_level"] else [])

/-- `SensorService.determine_mushroom_status` (app.py:584-615), with the
active phase's config passed in (the Python looks it up in
`GROWTH_PHASES`). -/
def determine_mushroom_status (cfg : PhaseConfig)
    (temp humidity co2 light water_level : ℚ) : Status :=
  if water_level < 10 then Status.critical
  else if issuesList cfg temp humidity co2 light water_level = [] then Status.optimal
  else if (issuesList cfg temp humidity co2 light water_level).length = 1 then Status.good
  else if (issuesList cfg temp humidity co2 light water_level).length = 2 then Status.warning
  else Status.critical

/-- The number of out-of-range fields as the spec words it: temperature
outside [min-2, max+2], humidity outside [min-10, max+5], co2 outside
[600,1500], light below 200 when the phase needs light, water below
20. -/
def spec_issue_count (cfg : PhaseConfig)
    (temp humidity co2 light water_level : ℚ) : ℕ :=
  (if temp < cfg.tempMin - 2 ∨ temp > cfg.tempMax + 2 then 1 else 0)
  + (if humidity < cfg.humidityMin - 10 ∨ humidity > cfg.humidityMax + 5 then 1 else 0)
  + (if co2 < 600 ∨ co2 > 1500 then 1 else 0)
  + (if cfg.light_needed = true ∧ light < 200 then 1 else 0)
  + (if water_level < 20 then 1 else 0)

/-- The status classification as the spec words it: `critical` when
water is below 10 (hard override), otherwise by issue count: zero
`optimal`, one `good`, two `warning`, three or more `critical`. -/
def spec_status (cfg : PhaseConfig)
    (temp humidity co2 light water_level : ℚ) : Status :=
  if water_level < 10 then Status.critical
  else
    match spec_issue_count cfg temp humidity co2 light water_level with
    | 0 => Status.optimal
    | 1 => Status.good
    | 2 => Status.warning
    | _ => Status.critical

/-- The `reservoir_config` entry of `SENSOR_CONFIG` (`config.py`,
external read-only configuration). -/
structure ReservoirConfig where
  sensor_height_cm : ℚ
  max_depth_cm : ℚ
  min_depth_cm : ℚ

/-- `SensorService.calculate_water_level_percentage` (app.py:465-486):
`None` distance yields the default 50.0; otherwise the water depth is
clamped into [0, max_depth] and converted to a percentage, rounded to
one decimal. -/
def calculate_water_level_percentage (res : ReservoirConfig)
    (distance_cm : Option ℚ) : ℚ :=
  match distance_cm with
  | Option.none => 50
  | Option.some d =>
      let water_depth := max 0 (min res.max_depth_cm (res.sensor_height_cm - d))
      if water_depth ≤ res.min_depth_cm then 0
      else pyRound1 ((water_depth - res.min_depth_cm)
        / (res.max_depth_cm - res.min_depth_cm) * 100)

/-- The water-level conversion exactly as the spec's formula words it:
`depth = clamp(H - distanceCm, 0, Dmax)`;
`level = 0 if depth <= Dmin else (depth - Dmin)/(Dmax - Dmin)*100`
(no rounding). -/
def water_level_spec_formula (res : ReservoirConfig) (distance_cm : ℚ) : ℚ :=
  let depth := max 0 (min res.max_depth_cm (res.sensor_height_cm - distance_cm))
  if depth ≤ res.min_depth_cm then 0
  else (depth - res.min_depth_cm) / (res.max_depth_cm - res.min_depth_cm) * 100

/-- The actuator state held by `GPIOControlService` (app.py:270-276). -/
structure GPIOState where
  fogger_active : Bool
  fan_speed : ℚ
  heater_active : Bool
  lights_active : Bool

/-- Python truthiness of the optional `duration` argument: `None` and
`0` are falsy. -/
def pyTruthy : Option ℚ → Bool
  | Option.none => false
  | Option.some d => decide (d ≠ 0)

/-- `GPIOControlService.control_fogger` (app.py:312-333).  Returns the
new actuator state and the delay of a newly armed auto-off timer, if
one was started (`threading.Timer(duration, ...)` at app.py:327).  In
simulation mode (`GPIO_AVAILABLE` false) the state is set and no timer
is ever armed; in hardware mode a timer is armed only when activating
with a truthy duration. -/
def control_fogger (gpio_available : Bool) (st : GPIOState)
    (activate : Bool) (duration : Option ℚ) : GPIOState × Option ℚ :=
  if gpio_available = false then
    ({ st with fogger_active := activate }, Option.none)
  else if activate = true then
    ({ st with fogger_active := true },
      if pyTruthy duration = true then duration else Option.none)
  else
    ({ st with fogger_active := false }, Option.none)

/-- `GPIOControlService.control_fan` (app.py:335-354): in both modes the
recorded fan speed becomes the requested speed. -/
def control_fan (st : GPIOState) (speed_percent : ℚ) : GPIOState :=
  { st with fan_speed := speed_percent }

/-- `GPIOControlService.control_lights` (app.py:356-368): in both modes
the recorded light state becomes the requested one. -/
def control_lights (st : GPIOState) (activate : Bool) : GPIOState :=
  { st with lights_active := activate }

/-- The numeric fields of one sensor reading (the `current_data` /
`sensor_data` dict of `SensorService`; metadata fields `timestamp`,
`device_id`, `mushroom_phase`, `mushroom_status` carry no arithmetic
content and are omitted). -/
structure ReadingData where
  temperature : ℚ
  humidity : ℚ
  co2 : ℤ
  light_intensity : ℤ
  water_level : ℚ

/-- The `control_settings` entry of `MUSHROOM_CONFIG` (`config.py`,
external read-only configuration): fogger auto-off duration and the
light schedule hours. -/
structure ControlSettings where
  fogger_duration : Option ℚ
  light_on_hour : ℤ
  light_off_hour : ℤ

/-- `auto_control_environment` (app.py:797-832): one decision cycle
over a sensor reading.  Rules run in source order: water-safety fogger
shutoff, humidity-low fogger-on (arming an auto-off timer), humidity
fan control, light schedule.  Returns the new actuator state and the
newly armed fogger auto-off delays. -/
def auto_control_environment (gpio_available : Bool) (cfg : PhaseConfig)
    (settings : ControlSettings) (current_hour : ℤ)
    (data : ReadingData) (st : GPIOState) : GPIOState × List ℚ :=
  let step1 :=
    if data.water_level < 15 ∧ st.fogger_active = true then
      control_fogger gpio_available st false Option.none
    else (st, Option.none)
  let step2 :=
    if data.humidity < cfg.humidityMin - 5 ∧ step1.1.fogger_active = false
        ∧ data.water_level > 20 then
      control_fogger gpio_available step1.1 true settings.fogger_duration
    else (step1.1, Option.none)
  let st3 :=
    if data.humidity > cfg.humidityMax + 5 ∧ step2.1.fan_speed < 50 then
      control_fan step2.1 50
    else if data.humidity ≤ cfg.humidityMax ∧ step2.1.fan_speed > 0 then
      control_fan step2.1 0
    else step2.1
  let should_lights_be_on := cfg.light_needed = true
    ∧ settings.light_on_hour ≤ current_hour
    ∧ current_hour < settings.light_off_hour
  let st4 :=
    if (should_lights_be_on ∧ st3.lights_active = false)
        ∨ (¬should_lights_be_on ∧ st3.lights_active = true) then
      control_lights st3 (decide should_lights_be_on)
    else st3
  (st4, step1.2.toList ++ step2.2.toList)

/-- The simulated humidity of `simulate_realistic_data` (app.py:536-539)
before rounding: the phase midpoint plus a random variation, clamped by
`max(50, min(98, ...))`. -/
def simulate_humidity (cfg : PhaseConfig) (humidity_variation : ℚ) : ℚ :=
  max 50 (min 98 ((cfg.humidityMin + cfg.humidityMax) / 2 + humidity_variation))

/-- The simulated water level of `simulate_realistic_data`
(app.py:556-565) before rounding: base 75 plus randomness minus
time-scaled consumption, clamped by `max(10, min(100, ...))`. -/
def simulate_water_level (rand_offset simulation_time water_consumption : ℚ) : ℚ :=
  max 10 (min 100 (75 + rand_offset - simulation_time / 3600 * water_consumption))

/-- The raw per-tick sensor environment seen by
`SensorService.read_real_sensors`: SCD41 presence/readiness and its
three optional values, light-sensor presence and voltage, and the
ultrasonic distance (`None` on timeout or error). -/
structure SensorInputs where
  scd41_present : Bool
  data_ready : Bool
  temp : Option ℚ
  humidity : Option ℚ
  co2 : Option ℚ
  light_present : Bool
  light_voltage : ℚ
  distance : Option ℚ

/-- The `calibration_offsets` entry of `SENSOR_CONFIG` (`config.py`,
external read-only configuration). -/
structure CalibOffsets where
  temperature : ℚ
  humidity : ℚ
  co2 : ℚ
  light_intensity : ℤ
  water_level : ℚ

/-- `SensorService.read_real_sensors` (app.py:488-520): starts from a
copy of the previous reading, overwrites temperature/humidity/co2 only
when the SCD41 is present, ready and all three values are non-`None`,
overwrites the light intensity when the light sensor is present, and
always overwrites the water level with the ultrasonic conversion
(which yields the default 50.0 when the distance read failed) plus its
calibration offset. -/
def read_real_sensors (prev : ReadingData) (inp : SensorInputs)
    (off : CalibOffsets) (res : ReservoirConfig) : ReadingData :=
  let d1 :=
    if inp.scd41_present = true ∧ inp.data_ready = true then
      match inp.temp, inp.humidity, inp.co2 with
      | Option.some t, Option.some h, Option.some c =>
          { prev with
            temperature := pyRound1 (t + off.temperature)
            humidity := pyRound1 (h + off.humidity)
            co2 := pyInt (c + off.co2) }
      | _, _, _ => prev
    else prev
  let d2 :=
    if inp.light_present = true then
      { d1 with light_intensity := pyInt (inp.light_voltage / (33/10) * 1000) + off.light_intensity }
    else d1
  { d2 with water_level := calculate_water_level_percentage res inp.distance + off.water_level }

/-- The persistence backends of the spec's `BackendSelector`: MongoDB
is primary, SQLite the fallback. -/
inductive Backend where
  | primary
  | fallback
deriving DecidableEq, Repr

/-- The connection state of `DatabaseService` (app.py:79-85):
`use_mongo`, whether `mongo_db` is set, whether `sqlite_conn` is
set. -/
structure DBState where
  use_mongo : Bool
  mongo_connected : Bool
  sqlite_connected : Bool

/-- The result of one `save_reading` call: the returned id (`None` on
total failure), the backends attempted in order, and the service state
afterwards. -/
structure SaveOutcome where
  result : Option ℕ
  attempted : List Backend
  state : DBState

/-- The SQLite half of `DatabaseService.save_reading` (app.py:154-178):
insert and return the row id, or `None` on error; skipped silently when
`sqlite_conn` is unset. -/
def save_reading_sqlite (st : DBState) (tried : List Backend)
    (sqlite_save_ok : Bool) (sqlite_rowid : ℕ) : SaveOutcome :=
  if st.sqlite_connected = true then
    if sqlite_save_ok = true then
      ⟨Option.some sqlite_rowid, tried ++ [Backend.fallback], st⟩
    else ⟨Option.none, tried ++ [Backend.fallback], st⟩
  else ⟨Option.none, tried, st⟩

/-- `DatabaseService.save_reading` (app.py:142-178): when `use_mongo`
and connected, try MongoDB first; on success return its id; on failure
set `use_mongo := false` and fall through to the SQLite block.
Otherwise go straight to SQLite.  The environment flags say whether
each backend's insert would succeed. -/
def save_reading (st : DBState) (mongo_save_ok : Bool) (mongo_id : ℕ)
    (sqlite_save_ok : Bool) (sqlite_rowid : ℕ) : SaveOutcome :=
  if st.use_mongo = true ∧ st.mongo_connected = true then
    if mongo_save_ok = true then
      ⟨Option.some mongo_id, [Backend.primary], st⟩
    else
      save_reading_sqlite { st with use_mongo := false } [Backend.primary]
        sqlite_save_ok sqlite_rowid
  else
    save_reading_sqlite st [] sqlite_save_ok sqlite_rowid

/-- `DatabaseService.connect_mongodb` (app.py:94-108): with a configured
URI, a successful `server_info` probe sets `use_mongo := true` and
returns `True`; a failure sets `use_mongo := false`, clears `mongo_db`
and returns `False`; with no URI nothing happens and the (falsy)
implicit `None` is returned. -/
def connect_mongodb (st : DBState) (uri_set server_ok : Bool) :
    DBState × Bool :=
  if uri_set = true then
    if server_ok = true then
      ({ st with use_mongo := true, mongo_connected := true }, true)
    else
      ({ st with use_mongo := false, mongo_connected := false }, false)
  else (st, false)

/-- One iteration of `database_health_monitor` (app.py:834-847): only
when `use_mongo` is false does it probe MongoDB via
`connect_mongodb`. -/
def database_health_monitor_step (st : DBState) (uri_set server_ok : Bool) :
    DBState :=
  if st.use_mongo = false then (connect_mongodb st uri_set server_ok).1 else st

/-- The response of the `/api/phase` route: success flag, HTTP status
code, and the value of the global `CURRENT_PHASE` afterwards. -/
structure PhaseResponse where
  success : Bool
  http_status : ℕ
  current_phase : String
deriving DecidableEq, Repr

/-- `set_mushroom_phase` (app.py:726-745): a requested phase that is a
key of `GROWTH_PHASES` becomes the current phase with a success
response; anything else (including a missing `phase` field) is rejected
with HTTP 400 and the current phase is unchanged. -/
def set_mushroom_phase (phase_table : List String) (current : String)
    (requested : Option String) : PhaseResponse :=
  match requested with
  | Option.some p =>
      if p ∈ phase_table then ⟨true, 200, p⟩ else ⟨false, 400, current⟩
  | Option.none => ⟨false, 400, current⟩

/-- Modelled from the spec: `SENSOR_CONFIG['read_interval']` lives in
`config.py`, which is absent from the sources; the spec gives the
default sampling cadence as 10 seconds (section 5). -/
def SENSOR_READ_INTERVAL : ℚ := 10

/-- The observable outcome of one iteration of the `sensor_monitor`
loop body (app.py:765-795): whether the loop continues to the next
iteration, and how long it sleeps before it. -/
structure TickStep where
  continues : Bool
  sleep_seconds : ℚ

/-- One iteration of `sensor_monitor` (app.py:765-795): a tick that
raises is caught by the `except` clause, which sleeps 5 seconds; a
clean tick sleeps the read interval.  The loop continues in either
case. -/
def sensor_monitor_step (tick_raises : Bool) : TickStep :=
  if tick_raises = true then ⟨true, 5⟩ else ⟨true, SENSOR_READ_INTERVAL⟩

/-- Whether the `sensor_monitor` loop is still running after `n`
iterations under the given per-iteration failure schedule. -/
def sensor_monitor_alive (fails : ℕ → Bool) : ℕ → Bool
  | 0 => true
  | n + 1 => sensor_monitor_alive fails n && (sensor_monitor_step (fails n)).continues

/-- Modelled from the spec: the `fruiting` entry of `GROWTH_PHASES`
lives in `config.py`, which is absent from the sources.  The spec gives
its humidity range as [65, 85] and `light_needed` as true (section 8);
it does not state the fruiting temperature range, taken here as
[18, 24] (the C7 scenario's outcome does not depend on it). -/
def fruitingConfig : PhaseConfig :=
  ⟨18, 24, 65, 85, true, "Fruiting"⟩

theorem status_by_length (l : List String) :
    (if l = [] then Status.optimal
     else if l.length = 1 then Status.good
     else if l.length = 2 then Status.warning
     else Status.critical)
      = (match l.length with
         | 0 => Status.optimal
         | 1 => Status.good
         | 2 => Status.warning
         | _ => Status.critical) := by
  rcases l with _ | ⟨a, _ | ⟨b, _ | ⟨c, t⟩⟩⟩ <;> simp

theorem issuesList_length (cfg : PhaseConfig)
    (temp humidity co2 light water_level : ℚ) :
    (issuesList cfg temp humidity co2 light water_level).length
      = spec_issue_count cfg temp humidity co2 light water_level := by
  simp only [issuesList, spec_issue_count, List.length_append,
    apply_ite List.length, List.length_singleton, List.length_nil]

/-- C1: the status classification of `determine_mushroom_status` agrees
with the spec's issue-set description for every reading and phase
config: the collected issues are exactly the five out-of-range checks,
water below 10 overrides everything with `critical`, and otherwise the
status is `optimal`/`good`/`warning`/`critical` for 0/1/2/3+ issues. -/
theorem determine_status_matches_spec (cfg : PhaseConfig)
    (temp humidity co2 light water_level : ℚ) :
    determine_mushroom_status cfg temp humidity co2 light water_level
      = spec_status cfg temp humidity co2 light water_level := by
  unfold determine_mushroom_status spec_status
  by_cases hw : water_level < 10
  · rw [if_pos hw, if_pos hw]
  · rw [if_neg hw, if_neg hw,
      ← issuesList_length cfg temp humidity co2 light water_level]
    exact status_by_length _

theorem roundHalfEven_bounds (q : ℚ) :
    ⌊q⌋ ≤ roundHalfEven q ∧ roundHalfEven q ≤ ⌊q⌋ + 1 := by
  unfold roundHalfEven
  split_ifs <;> omega

theorem roundHalfEven_intCast (n : ℤ) : roundHalfEven (n : ℚ) = n := by
  unfold roundHalfEven
  rw [Int.floor_intCast]
  norm_num

theorem roundHalfEven_mono {a b : ℚ} (h : a ≤ b) :
    roundHalfEven a ≤ roundHalfEven b := by
  rcases lt_or_eq_of_le (Int.floor_le_floor h) with hf | hf
  · have h1 := (roundHalfEven_bounds a).2
    have h2 := (roundHalfEven_bounds b).1
    omega
  · have hr : a - (⌊b⌋ : ℚ) ≤ b - (⌊b⌋ : ℚ) := by linarith
    unfold roundHalfEven
    rw [hf]
    split_ifs <;> first | omega | linarith

theorem pyRound1_mono {a b : ℚ} (h : a ≤ b) : pyRound1 a ≤ pyRound1 b := by
  unfold pyRound1
  have h10 : a * 10 ≤ b * 10 := by linarith
  have hz := roundHalfEven_mono h10
  have hq : ((roundHalfEven (a * 10) : ℤ) : ℚ) ≤ ((roundHalfEven (b * 10) : ℤ) : ℚ) := by
    exact_mod_cast hz
  linarith

theorem pyRound1_intCast (n : ℤ) : pyRound1 (n : ℚ) = n := by
  unfold pyRound1
  have hcast : ((n : ℚ)) * 10 = ((n * 10 : ℤ) : ℚ) := by push_cast; ring
  rw [hcast, roundHalfEven_intCast]
  push_cast
  ring

theorem pyRound1_bounds {q : ℚ} {n m : ℤ} (h1 : (n : ℚ) ≤ q) (h2 : q ≤ (m : ℚ)) :
    (n : ℚ) ≤ pyRound1 q ∧ pyRound1 q ≤ (m : ℚ) := by
  constructor
  · have := pyRound1_mono h1
    rwa [pyRound1_intCast] at this
  · have := pyRound1_mono h2
    rwa [pyRound1_intCast] at this

theorem pyRound1_zero_hundred {q : ℚ} (h1 : 0 ≤ q) (h2 : q ≤ 100) :
    0 ≤ pyRound1 q ∧ pyRound1 q ≤ 100 := by
  have h1c : ((0 : ℤ) : ℚ) ≤ q := by exact_mod_cast h1
  have h2c : q ≤ ((100 : ℤ) : ℚ) := by exact_mod_cast h2
  have := pyRound1_bounds h1c h2c
  constructor
  · exact_mod_cast this.1
  · exact_mod_cast this.2

theorem pyRound1_zero : pyRound1 0 = 0 := by
  have := pyRound1_intCast 0
  simpa using this

theorem water_level_spec_formula_antitone (res : ReservoirConfig)
    (h : res.min_depth_cm < res.max_depth_cm) {d1 d2 : ℚ} (hd : d1 ≤ d2) :
    water_level_spec_formula res d2 ≤ water_level_spec_formula res d1 := by
  unfold water_level_spec_formula
  have hdep : max 0 (min res.max_depth_cm (res.sensor_height_cm - d2))
      ≤ max 0 (min res.max_depth_cm (res.sensor_height_cm - d1)) :=
    max_le_max le_rfl (min_le_min le_rfl (by linarith))
  set u := max 0 (min res.max_depth_cm (res.sensor_height_cm - d2)) with hu
  set v := max 0 (min res.max_depth_cm (res.sensor_height_cm - d1)) with hv
  dsimp only
  split_ifs with h1 h2 h2
  · exact le_rfl
  · have hnum : 0 ≤ v - res.min_depth_cm := by linarith [lt_of_not_le h2]
    have hden : 0 < res.max_depth_cm - res.min_depth_cm := by linarith
    exact mul_nonneg (div_nonneg hnum hden.le) (by norm_num)
  · exact absurd (hdep.trans h2) h1
  · have hden : 0 < res.max_depth_cm - res.min_depth_cm := by linarith
    have hdiv : (u - res.min_depth_cm) / (res.max_depth_cm - res.min_depth_cm)
        ≤ (v - res.min_depth_cm) / (res.max_depth_cm - res.min_depth_cm) :=
      (div_le_div_iff_of_pos_right hden).mpr (by linarith)
    exact mul_le_mul_of_nonneg_right hdiv (by norm_num)

theorem water_level_spec_formula_bounds (res : ReservoirConfig)
    (h0 : 0 ≤ res.min_depth_cm) (h : res.min_depth_cm < res.max_depth_cm)
    (d : ℚ) :
    0 ≤ water_level_spec_formula res d ∧ water_level_spec_formula res d ≤ 100 := by
  unfold water_level_spec_formula
  set u := max 0 (min res.max_depth_cm (res.sensor_height_cm - d)) with hu
  dsimp only
  have hden : 0 < res.max_depth_cm - res.min_depth_cm := by linarith
  split_ifs with h1
  · norm_num
  · have hmu : res.min_depth_cm < u := lt_of_not_le h1
    have humax : u ≤ res.max_depth_cm := by
      rcases le_or_lt (min res.max_depth_cm (res.sensor_height_cm - d)) 0 with hy | hy
      · have : u = 0 := max_eq_left hy
        linarith
      · have : u = min res.max_depth_cm (res.sensor_height_cm - d) := max_eq_right hy.le
        rw [this]
        exact min_le_left _ _
    constructor
    · exact mul_nonneg (div_nonneg (by linarith) hden.le) (by norm_num)
    · have hdiv : (u - res.min_depth_cm) / (res.max_depth_cm - res.min_depth_cm) ≤ 1 :=
        (div_le_one hden).mpr (by linarith)
      calc (u - res.min_depth_cm) / (res.max_depth_cm - res.min_depth_cm) * 100
          ≤ 1 * 100 := mul_le_mul_of_nonneg_right hdiv (by norm_num)
        _ = 100 := by norm_num

theorem calculate_eq_round_formula (res : ReservoirConfig) (d : ℚ) :
    calculate_water_level_percentage res (Option.some d)
      = pyRound1 (water_level_spec_formula res d) := by
  unfold calculate_water_level_percentage water_level_spec_formula
  dsimp only
  split_ifs
  · exact pyRound1_zero.symm
  · rfl

/-- C6 (amended): for a reservoir config with `0 ≤ Dmin < Dmax`, the
water-level conversion computes `pyRound1` (Python `round(x, 1)`) of
the spec's formula `level = 0 if depth <= Dmin else
(depth - Dmin)/(Dmax - Dmin)*100` with
`depth = clamp(H - distanceCm, 0, Dmax)`; consequently, over all
non-null distances, the level is monotonically non-increasing in the
distance and always lies in [0, 100]. -/
theorem calculate_water_level_props (res : ReservoirConfig)
    (h0 : 0 ≤ res.min_depth_cm) (h : res.min_depth_cm < res.max_depth_cm) :
    (∀ d : ℚ, calculate_water_level_percentage res (Option.some d)
        = pyRound1 (water_level_spec_formula res d))
    ∧ (∀ d1 d2 : ℚ, d1 ≤ d2 →
        calculate_water_level_percentage res (Option.some d2)
          ≤ calculate_water_level_percentage res (Option.some d1))
    ∧ (∀ d : ℚ, 0 ≤ calculate_water_level_percentage res (Option.some d)
        ∧ calculate_water_level_percentage res (Option.some d) ≤ 100) := by
  refine ⟨calculate_eq_round_formula res, ?_, ?_⟩
  · intro d1 d2 hd
    rw [calculate_eq_round_formula res d1, calculate_eq_round_formula res d2]
    exact pyRound1_mono (water_level_spec_formula_antitone res h hd)
  · intro d
    rw [calculate_eq_round_formula res d]
    obtain ⟨hl, hr⟩ := water_level_spec_formula_bounds res h0 h d
    exact pyRound1_zero_hundred hl hr

theorem calculate_water_level_props_witness :
    (0 : ℚ) ≤ 5 ∧ (5 : ℚ) < 30
      ∧ (0 ≤ calculate_water_level_percentage ⟨35, 30, 5⟩ (Option.some 12)
          ∧ calculate_water_level_percentage ⟨35, 30, 5⟩ (Option.some 12) ≤ 100) :=
  ⟨by norm_num, by norm_num,
    (calculate_water_level_props ⟨35, 30, 5⟩ (by norm_num) (by norm_num)).2.2 12⟩

/-- C6 counterexample: with `H = 35`, `Dmax = 30`, `Dmin = 5` and
`distanceCm = 19.99`, the code returns the rounded value 40.0 while the
claim's exact formula gives 40.04, so the conversion does not compute
the claimed formula literally. -/
theorem water_level_formula_rounds :
    calculate_water_level_percentage ⟨35, 30, 5⟩ (Option.some (1999/100))
      ≠ water_level_spec_formula ⟨35, 30, 5⟩ (1999/100) := by
  have hmin : min (30 : ℚ) (35 - 1999/100) = 1501/100 := by
    rw [min_def]
    norm_num
  have hmax : max (0 : ℚ) (1501/100) = 1501/100 := by
    rw [max_def]
    norm_num
  have hfloor : ⌊(2002/5 : ℚ)⌋ = 400 := by
    rw [Int.floor_eq_iff]
    norm_num
  have h1 : calculate_water_level_percentage ⟨35, 30, 5⟩ (Option.some (1999/100)) = 40 := by
    unfold calculate_water_level_percentage
    dsimp only
    rw [hmin, hmax, if_neg (by norm_num)]
    unfold pyRound1 roundHalfEven
    rw [show ((1501/100 - 5) / (30 - 5) * 100 * 10 : ℚ) = 2002/5 by norm_num]
    rw [hfloor, if_pos (by norm_num)]
    norm_num
  have h2 : water_level_spec_formula ⟨35, 30, 5⟩ (1999/100) = 1001/25 := by
    unfold water_level_spec_formula
    dsimp only
    rw [hmin, hmax, if_neg (by norm_num)]
    norm_num
  rw [h1, h2]
  norm_num

theorem control_fogger_off_fogger_inactive (gpio_available : Bool)
    (st : GPIOState) (duration : Option ℚ) :
    (control_fogger gpio_available st false duration).1.fogger_active = false := by
  cases gpio_available <;> rfl

/-- C2: for every sensor reading with `water_level < 15` and the fogger
currently active, one run of `auto_control_environment` leaves the
fogger off, whatever the humidity: the water-safety rule runs first and
its `water_level > 20` guard keeps the humidity-low rule from turning
the fogger back on. -/
theorem water_safety_vetoes_fogger (gpio_available : Bool) (cfg : PhaseConfig)
    (settings : ControlSettings) (current_hour : ℤ) (data : ReadingData)
    (st : GPIOState) (hw : data.water_level < 15) (hf : st.fogger_active = true) :
    (auto_control_environment gpio_available cfg settings current_hour data st).1.fogger_active
      = false := by
  have h1 := control_fogger_off_fogger_inactive gpio_available st Option.none
  have hA : data.water_level < 15 ∧ st.fogger_active = true := ⟨hw, hf⟩
  have hB : ¬(data.humidity < cfg.humidityMin - 5
      ∧ (control_fogger gpio_available st false Option.none).1.fogger_active = false
      ∧ data.water_level > 20) := by
    rintro ⟨-, -, hgt⟩
    linarith
  simp only [auto_control_environment, if_pos hA, if_neg hB]
  split_ifs <;> exact h1

theorem water_safety_vetoes_fogger_witness :
    (10 : ℚ) < 15
      ∧ (auto_control_environment false ⟨20, 25, 80, 90, true, "Pinning"⟩
          ⟨Option.some 30, 6, 18⟩ 12 ⟨22, 95, 800, 500, 10⟩
          ⟨true, 0, false, false⟩).1.fogger_active = false :=
  ⟨by norm_num,
    water_safety_vetoes_fogger false ⟨20, 25, 80, 90, true, "Pinning"⟩
      ⟨Option.some 30, 6, 18⟩ 12 ⟨22, 95, 800, 500, 10⟩
      ⟨true, 0, false, false⟩ (by norm_num) rfl⟩

/-- C10: in simulation mode (`GPIO_AVAILABLE` false), `control_fogger`
with `activate=True` and any duration sets the fogger active and arms
no auto-off timer at all (the duration is ignored), so the fogger stays
active until an explicit off command; and whenever a timer is armed,
the mode was hardware, the call was an activation and the duration was
truthy. -/
theorem control_fogger_simulation_ignores_duration :
    (∀ (st : GPIOState) (d : Option ℚ),
      (control_fogger false st true d).1.fogger_active = true
        ∧ (control_fogger false st true d).2 = Option.none)
    ∧ ∀ (gpio_available activate : Bool) (st : GPIOState) (d : Option ℚ),
        (control_fogger gpio_available st activate d).2 ≠ Option.none →
        gpio_available = true ∧ activate = true ∧ pyTruthy d = true
          ∧ (control_fogger gpio_available st activate d).2 = d := by
  constructor
  · intro st d
    exact ⟨rfl, rfl⟩
  · intro g a st d hne
    cases g with
    | false => exact absurd rfl hne
    | true =>
        cases a with
        | false => exact absurd rfl hne
        | true =>
            cases hp : pyTruthy d with
            | false =>
                simp [control_fogger, hp] at hne
            | true =>
                refine ⟨rfl, rfl, rfl, ?_⟩
                simp [control_fogger, hp]

theorem control_fogger_simulation_ignores_duration_witness :
    (control_fogger true ⟨false, 0, false, false⟩ true (Option.some 30)).2 ≠ Option.none
      ∧ pyTruthy (Option.some 30) = true :=
  ⟨by simp [control_fogger, pyTruthy],
    (control_fogger_simulation_ignores_duration.2 true true ⟨false, 0, false, false⟩
      (Option.some 30) (by simp [control_fogger, pyTruthy])).2.2.1⟩

/-- C9: a phase-switch request whose phase id is not a key of the
growth-phase table (or is absent) is rejected with a failure response
(HTTP 400) and leaves the current phase unchanged; a valid key becomes
the current phase with a success response. -/
theorem set_mushroom_phase_validation (phase_table : List String)
    (current p : String) :
    (p ∉ phase_table →
      set_mushroom_phase phase_table current (Option.some p) = ⟨false, 400, current⟩)
    ∧ (p ∈ phase_table →
      set_mushroom_phase phase_table current (Option.some p) = ⟨true, 200, p⟩)
    ∧ set_mushroom_phase phase_table current Option.none = ⟨false, 400, current⟩ := by
  refine ⟨?_, ?_, rfl⟩
  · intro hmem
    simp only [set_mushroom_phase]
    rw [if_neg hmem]
  · intro hmem
    simp only [set_mushroom_phase]
    rw [if_pos hmem]

theorem set_mushroom_phase_validation_witness :
    ("spawning" ∉ ["colonization", "pinning", "fruiting"]
      ∧ set_mushroom_phase ["colonization", "pinning", "fruiting"] "pinning"
          (Option.some "spawning") = ⟨false, 400, "pinning"⟩)
    ∧ ("fruiting" ∈ ["colonization", "pinning", "fruiting"]
      ∧ set_mushroom_phase ["colonization", "pinning", "fruiting"] "pinning"
          (Option.some "fruiting") = ⟨true, 200, "fruiting"⟩) :=
  ⟨⟨by decide,
    (set_mushroom_phase_validation ["colonization", "pinning", "fruiting"]
      "pinning" "spawning").1 (by decide)⟩,
   ⟨by decide,
    (set_mushroom_phase_validation ["colonization", "pinning", "fruiting"]
      "pinning" "fruiting").2.1 (by decide)⟩⟩

/-- C8: an exception raised anywhere inside one tick of the
`sensor_monitor` loop body is caught by its `except` clause, which
sleeps 5 seconds (shorter than the normal cadence) and lets the loop
continue; the loop is still alive after any number of iterations under
any failure schedule. -/
theorem sensor_monitor_never_terminates :
    (∀ tick_raises : Bool, (sensor_monitor_step tick_raises).continues = true)
    ∧ (sensor_monitor_step true).sleep_seconds = 5
    ∧ (sensor_monitor_step true).sleep_seconds < SENSOR_READ_INTERVAL
    ∧ (sensor_monitor_step false).sleep_seconds = SENSOR_READ_INTERVAL
    ∧ ∀ (fails : ℕ → Bool) (n : ℕ), sensor_monitor_alive fails n = true := by
  refine ⟨?_, rfl, ?_, rfl, ?_⟩
  · intro t
    cases t <;> rfl
  · norm_num [sensor_monitor_step, SENSOR_READ_INTERVAL]
  · intro fails n
    induction n with
    | zero => rfl
    | succ n ih =>
        rw [sensor_monitor_alive, ih]
        cases fails n <;> rfl

/-- C3 (amended): in simulation mode the stored humidity and water
level are clamped before storage — humidity into [50, 98] and water
level into [10, 100], hence both into [0, 100] — for every phase config
and all random draws; hardware mode stores calibrated sensor values
without clamping (see the counterexample). -/
theorem simulated_reading_clamped (cfg : PhaseConfig)
    (humidity_variation rand_offset simulation_time water_consumption : ℚ) :
    (0 ≤ pyRound1 (simulate_humidity cfg humidity_variation)
      ∧ pyRound1 (simulate_humidity cfg humidity_variation) ≤ 100)
    ∧ (0 ≤ pyRound1 (simulate_water_level rand_offset simulation_time water_consumption)
      ∧ pyRound1 (simulate_water_level rand_offset simulation_time water_consumption) ≤ 100) := by
  constructor
  · have h50 : (50 : ℚ) ≤ simulate_humidity cfg humidity_variation := le_max_left _ _
    have h98 : simulate_humidity cfg humidity_variation ≤ 98 :=
      max_le (by norm_num) (min_le_left _ _)
    exact pyRound1_zero_hundred (by linarith) (by linarith)
  · have h10 : (10 : ℚ) ≤ simulate_water_level rand_offset simulation_time water_consumption :=
      le_max_left _ _
    have h100 : simulate_water_level rand_offset simulation_time water_consumption ≤ 100 :=
      max_le (by norm_num) (min_le_left _ _)
    exact pyRound1_zero_hundred (by linarith) (by linarith)

/-- C3 counterexample: a hardware-mode read with a raw SCD41 humidity
of 150 and zero calibration offsets stores humidity 150, outside
[0, 100]: `read_real_sensors` performs no clamping before the reading
reaches `save_reading`. -/
theorem hardware_reading_not_clamped :
    (read_real_sensors ⟨0, 0, 400, 0, 50⟩
        ⟨true, true, Option.some 22, Option.some 150, Option.some 800, false, 0, Option.some 20⟩
        ⟨0, 0, 0, 0, 0⟩ ⟨35, 30, 5⟩).humidity = 150
      ∧ ¬((150 : ℚ) ≤ 100) := by
  have h150 : pyRound1 ((150 : ℚ) + 0) = 150 := by
    rw [show ((150 : ℚ) + 0) = ((150 : ℤ) : ℚ) by norm_num, pyRound1_intCast]
    norm_num
  exact ⟨h150, by norm_num⟩

/-- C5 (amended): per-field degradation of `read_real_sensors`: when
the SCD41 is absent, not ready, or returns a missing value,
temperature/humidity/co2 keep their last-known values; when the light
sensor is absent the light intensity keeps its last-known value; but
when the ultrasonic distance read fails the water level is set to the
default 50.0 plus its calibration offset, not the last-known value;
every field whose sensor succeeded carries the freshly converted
value. -/
theorem read_real_sensors_partial_degradation (prev : ReadingData)
    (inp : SensorInputs) (off : CalibOffsets) (res : ReservoirConfig) :
    (inp.scd41_present = false ∨ inp.data_ready = false
        ∨ inp.temp = Option.none ∨ inp.humidity = Option.none ∨ inp.co2 = Option.none →
      (read_real_sensors prev inp off res).temperature = prev.temperature
        ∧ (read_real_sensors prev inp off res).humidity = prev.humidity
        ∧ (read_real_sensors prev inp off res).co2 = prev.co2)
    ∧ (inp.light_present = false →
      (read_real_sensors prev inp off res).light_intensity = prev.light_intensity)
    ∧ (inp.distance = Option.none →
      (read_real_sensors prev inp off res).water_level = 50 + off.water_level)
    ∧ (∀ t h c, inp.scd41_present = true → inp.data_ready = true →
        inp.temp = Option.some t → inp.humidity = Option.some h → inp.co2 = Option.some c →
      (read_real_sensors prev inp off res).temperature = pyRound1 (t + off.temperature)
        ∧ (read_real_sensors prev inp off res).humidity = pyRound1 (h + off.humidity)
        ∧ (read_real_sensors prev inp off res).co2 = pyInt (c + off.co2))
    ∧ (inp.light_present = true →
      (read_real_sensors prev inp off res).light_intensity
        = pyInt (inp.light_voltage / (33/10) * 1000) + off.light_intensity) := by
  obtain ⟨sp, dr, te, hu, co, lp, lv, di⟩ := inp
  dsimp only
  refine ⟨?_, ?_, ?_, ?_, ?_⟩
  · rintro (h | h | h | h | h) <;> subst h <;>
      first
        | (cases te <;> cases hu <;> cases co <;>
            simp [read_real_sensors, apply_ite ReadingData.temperature,
              apply_ite ReadingData.humidity, apply_ite ReadingData.co2])
        | (cases hu <;> cases co <;>
            simp [read_real_sensors, apply_ite ReadingData.temperature,
              apply_ite ReadingData.humidity, apply_ite ReadingData.co2])
        | (cases te <;> cases co <;>
            simp [read_real_sensors, apply_ite ReadingData.temperature,
              apply_ite ReadingData.humidity, apply_ite ReadingData.co2])
        | (cases te <;> cases hu <;>
            simp [read_real_sensors, apply_ite ReadingData.temperature,
              apply_ite ReadingData.humidity, apply_ite ReadingData.co2])
  · intro h
    subst h
    cases te <;> cases hu <;> cases co <;>
      simp [read_real_sensors, apply_ite ReadingData.light_intensity]
  · intro h
    subst h
    simp [read_real_sensors, calculate_water_level_percentage]
  · intro t h c hsp hdr hte hhu hco
    subst hsp; subst hdr; subst hte; subst hhu; subst hco
    cases lp <;> simp [read_real_sensors]
  · intro h
    subst h
    simp [read_real_sensors]

theorem read_real_sensors_partial_degradation_witness :
    (Option.none : Option ℚ) = Option.none
      ∧ (read_real_sensors ⟨20, 90, 800, 300, 80⟩
          ⟨true, false, Option.none, Option.none, Option.none, false, 0, Option.none⟩
          ⟨0, 0, 0, 0, 2⟩ ⟨35, 30, 5⟩).water_level = 50 + 2 :=
  ⟨rfl,
    (read_real_sensors_partial_degradation ⟨20, 90, 800, 300, 80⟩
      ⟨true, false, Option.none, Option.none, Option.none, false, 0, Option.none⟩
      ⟨0, 0, 0, 0, 2⟩ ⟨35, 30, 5⟩).2.2.1 rfl⟩

/-- C5 counterexample: the previous reading's water level is 80, the
ultrasonic read fails (`None` distance, zero offsets) — the produced
reading's water level is the default 50.0, not the last-known 80. -/
theorem ultrasonic_failure_default_not_last_known :
    (read_real_sensors ⟨0, 0, 400, 0, 80⟩
        ⟨false, false, Option.none, Option.none, Option.none, false, 0, Option.none⟩
        ⟨0, 0, 0, 0, 0⟩ ⟨35, 30, 5⟩).water_level = 50
      ∧ ((50 : ℚ) ≠ 80) := by
  constructor
  · show calculate_water_level_percentage ⟨35, 30, 5⟩ Option.none + 0 = 50
    norm_num [calculate_water_level_percentage]
  · norm_num

/-- C4: on a MongoDB save failure the service flips to the SQLite
fallback, retries the same save once against it and returns its result
(`None` when SQLite also fails); while `use_mongo` is false every save
goes straight to SQLite without touching MongoDB; a successful health
probe flips `use_mongo` back, and the next save targets MongoDB
first. -/
theorem save_failover_failback (st : DBState) (mongo_id sqlite_rowid : ℕ)
    (sqlite_save_ok : Bool) (h1 : st.use_mongo = true)
    (h2 : st.mongo_connected = true) (h3 : st.sqlite_connected = true) :
    ((save_reading st false mongo_id sqlite_save_ok sqlite_rowid).state.use_mongo = false
      ∧ (save_reading st false mongo_id sqlite_save_ok sqlite_rowid).attempted
          = [Backend.primary, Backend.fallback]
      ∧ (save_reading st false mongo_id sqlite_save_ok sqlite_rowid).result
          = (if sqlite_save_ok = true then Option.some sqlite_rowid else Option.none))
    ∧ (∀ (st2 : DBState) (m_ok : Bool) (mid2 rid2 : ℕ) (sq2 : Bool),
        st2.use_mongo = false →
        Backend.primary ∉ (save_reading st2 m_ok mid2 sq2 rid2).attempted)
    ∧ (∀ st3 : DBState, st3.use_mongo = false →
        (database_health_monitor_step st3 true true).use_mongo = true
          ∧ ∀ (mid3 rid3 : ℕ) (sq3 : Bool),
              (save_reading (database_health_monitor_step st3 true true) true mid3 sq3 rid3).attempted
                = [Backend.primary]) := by
  refine ⟨?_, ?_, ?_⟩
  · simp only [save_reading, save_reading_sqlite, h1, h2, h3]
    cases sqlite_save_ok <;> simp
  · intro st2 m_ok mid2 rid2 sq2 husm
    simp only [save_reading, husm]
    cases hsc : st2.sqlite_connected <;> cases sq2 <;>
      simp [save_reading_sqlite, hsc]
  · intro st3 husm
    refine ⟨?_, ?_⟩
    · simp [database_health_monitor_step, connect_mongodb, husm]
    · intro mid3 rid3 sq3
      simp [database_health_monitor_step, connect_mongodb, husm, save_reading]

theorem save_failover_failback_witness :
    ((⟨true, true, true⟩ : DBState).use_mongo = true
        ∧ (⟨true, true, true⟩ : DBState).mongo_connected = true
        ∧ (⟨true, true, true⟩ : DBState).sqlite_connected = true)
      ∧ ((save_reading ⟨true, true, true⟩ false 7 true 3).state.use_mongo = false
        ∧ (save_reading ⟨true, true, true⟩ false 7 true 3).attempted
            = [Backend.primary, Backend.fallback]
        ∧ (save_reading ⟨true, true, true⟩ false 7 true 3).result
            = (if true = true then Option.some 3 else Option.none)) :=
  ⟨⟨rfl, rfl, rfl⟩, (save_failover_failback ⟨true, true, true⟩ 7 3 true rfl rfl rfl).1⟩

/-- C7 (amended): for the spec-modelled fruiting config (humidity range
[65, 85], light needed) with any temperature range, the reading
temperature=24, humidity=50, co2=800, light=500, water=60 collects
exactly the humidity issue (plus temperature when 24 is outside the
temperature tolerance), so the status is `good` or `warning` — never
`critical`. -/
theorem fruiting_scenario_status (tempMin tempMax : ℚ) (nm : String) :
    determine_mushroom_status ⟨tempMin, tempMax, 65, 85, true, nm⟩ 24 50 800 500 60
      = if (24 : ℚ) < tempMin - 2 ∨ (24 : ℚ) > tempMax + 2 then Status.warning
        else Status.good := by
  have hiss : issuesList ⟨tempMin, tempMax, 65, 85, true, nm⟩ 24 50 800 500 60
      = (if (24 : ℚ) < tempMin - 2 ∨ (24 : ℚ) > tempMax + 2 then ["temperature"] else [])
        ++ ["humidity"] := by
    unfold issuesList
    norm_num
  unfold determine_mushroom_status
  rw [hiss]
  rw [if_neg (by norm_num : ¬(60 : ℚ) < 10)]
  by_cases hc : (24 : ℚ) < tempMin - 2 ∨ (24 : ℚ) > tempMax + 2
  · rw [if_pos hc, if_pos hc]
    simp
  · rw [if_neg hc, if_neg hc]
    simp

/-- C7 counterexample: with the spec-modelled fruiting config, the
reading temperature=24, humidity=50, co2=800, light=500, water=60 is
classified `good` (its sole issue is humidity), not `critical` as
claimed. -/
theorem fruiting_scenario_not_critical :
    determine_mushroom_status fruitingConfig 24 50 800 500 60 = Status.good
      ∧ Status.good ≠ Status.critical := by
  refine ⟨?_, by decide⟩
  norm_num [determine_mushroom_status, issuesList, fruitingConfig]
